import Mathlib

/-!
Shallow embedding of the Jagoan transaction correlation workflow.

Server side (apps/server/src/index.js): the POST /webhook/transaction
handler, the Telegram bot text-reply handler, and the NodeCache pending
store created with stdTTL 3600 seconds.  Android side
(apps/android/.../JagoanListenerService.kt): the notification
deduplication step of onNotificationPosted and the extractAmount regex
utility.

Conventions: times are milliseconds, as produced by Date.now and
System.currentTimeMillis.  JSON numbers and notification amounts are
modelled as integers; the claims under study only involve integral
amounts.  Fresh transaction ids and the success or failure of the
external collaborators (Telegram sendMessage, Notion pages.create) are
passed as explicit parameters.
-/

namespace Jagoan

/-- NodeCache stdTTL of 3600 seconds, converted to milliseconds. -/
def TTL_MS : Nat := 3600000

/-- Android DEBOUNCE_TIME: 5000 ms dedup window. -/
def DEBOUNCE_MS : Nat := 5000

/-- One record of the NodeCache pending store: its key, the stored value
(amount and the timestamp recorded at set time), and the node-cache expiry
instant, which set computes as the set time plus the TTL. -/
structure CacheEntry where
  key : String
  amount : Int
  ts : Nat
  expiresAt : Nat
deriving Repr, DecidableEq

/-- The NodeCache data object: entries in JavaScript object key order,
which for these non-integer-like string keys is insertion order. -/
structure Cache where
  entries : List CacheEntry
deriving Repr, DecidableEq

/-- node-cache keys(): every stored key in insertion order, with no
TTL check (expired entries still appear until something deletes them). -/
def Cache.keys (c : Cache) : List String := c.entries.map (fun e => e.key)

/-- Locate the entry stored under a key.  JavaScript object keys are
unique, so the first hit is the only one. -/
def findEntry : List CacheEntry → String → Option CacheEntry
  | [], _ => none
  | e :: rest, k => if e.key = k then some e else findEntry rest k

/-- Remove the entry stored under a key (the first hit, which is the only
one on states reachable through fresh ids). -/
def removeEntry : List CacheEntry → String → List CacheEntry
  | [], _ => []
  | e :: rest, k => if e.key = k then rest else e :: removeEntry rest k

/-- node-cache set(key, value) with the default stdTTL: a fresh key is
appended (JavaScript object insertion order); re-setting an existing key
overwrites the value in place, keeping the key position. -/
def Cache.set (c : Cache) (k : String) (amt : Int) (now : Nat) : Cache :=
  if (findEntry c.entries k).isSome then
    ⟨c.entries.map (fun e => if e.key = k then ⟨k, amt, now, now + TTL_MS⟩ else e)⟩
  else
    ⟨c.entries ++ [⟨k, amt, now, now + TTL_MS⟩]⟩

/-- node-cache del(key). -/
def Cache.del (c : Cache) (k : String) : Cache := ⟨removeEntry c.entries k⟩

/-- node-cache get(key): an entry whose expiry instant lies strictly in
the past is deleted (deleteOnExpire is the default) and reported absent;
a live entry is returned and the store is untouched.  Returns the lookup
result together with the possibly updated store. -/
def Cache.get (c : Cache) (k : String) (now : Nat) : Option CacheEntry × Cache :=
  match findEntry c.entries k with
  | none => (none, c)
  | some e => if e.expiresAt < now then (none, c.del k) else (some e, c)

/-- The JSON value found at the amount field of the webhook request body,
or nothing when the field is absent.  Numbers are modelled as integers. -/
inductive JsonValue where
  | num (n : Int)
  | str (s : String)
  | bool (b : Bool)
  | null
deriving Repr, DecidableEq

/-- JavaScript truthiness, as used by the guard that negates amount:
undefined, null, 0, the empty string and false are falsy. -/
def jsFalsy : Option JsonValue → Bool
  | none => true
  | some (.num n) => n == 0
  | some (.str s) => s == ""
  | some (.bool b) => !b
  | some .null => true

/-- The JavaScript test typeof amount equals "number". -/
def jsIsNumber : Option JsonValue → Bool
  | some (.num _) => true
  | _ => false

/-- HTTP response of the webhook route. -/
inductive WebhookStatus where
  | rejected400
  | ok200 (txnId : String)
  | error500
deriving Repr, DecidableEq

/-- Result of one webhook request: the response, the pending store
afterwards, and the amounts for which bot.telegram.sendMessage was
invoked. -/
structure WebhookOutcome where
  status : WebhookStatus
  cache : Cache
  notifs : List Int
deriving Repr, DecidableEq

/-- POST /webhook/transaction: reject with 400 unless the amount is
truthy and of number type; otherwise store the transaction under a fresh
id with the current timestamp, then await sendMessage.  The sendOk
parameter is the fate of that send: a throw lands in the catch block and
answers 500, but only after the entry is already stored.  The notifs
field records the sendMessage invocation in either case. -/
def handleWebhook (cache : Cache) (amount : Option JsonValue) (now : Nat)
    (freshId : String) (sendOk : Bool) : WebhookOutcome :=
  if jsFalsy amount || !(jsIsNumber amount) then
    ⟨.rejected400, cache, []⟩
  else
    let n := match amount with
      | some (.num m) => m
      | _ => 0
    let cache₁ := cache.set freshId n now
    if sendOk then ⟨.ok200 freshId, cache₁, [n]⟩
    else ⟨.error500, cache₁, [n]⟩

/-- The distinct ctx.reply messages the bot text handler can send, in the
order the source sends them. -/
inductive BotReply where
  | nothingPending
  | notFoundOrExpired
  | saving
  | savedConfirmation (name : String) (amount : Int)
  | errorMessage
deriving Repr, DecidableEq

/-- Result of one bot text event: the ctx.reply messages sent, the
pending store afterwards, and the createNotionTransaction invocations as
(name, amount) pairs. -/
structure ReplyOutcome where
  replies : List BotReply
  cache : Cache
  ledgerWrites : List (String × Int)
deriving Repr, DecidableEq

/-- The bot text handler: drop messages from any chat other than the
configured one without replying; answer nothing-pending on an empty key
list; otherwise look up the first cached key, answer
not-found-or-expired when get comes back empty, and else invoke the
Notion create with the reply text and the cached amount.  The ledgerOk
parameter is the fate of that create: on success the entry is deleted and
a confirmation is sent; a throw lands in the catch block, which sends the
failure message and touches nothing else. -/
def handleReply (cache : Cache) (chatId authorizedId : String) (text : String)
    (now : Nat) (ledgerOk : Bool) : ReplyOutcome :=
  if chatId ≠ authorizedId then ⟨[], cache, []⟩
  else
    match cache.keys with
    | [] => ⟨[.nothingPending], cache, []⟩
    | k :: _ =>
      match cache.get k now with
      | (none, cache₁) => ⟨[.notFoundOrExpired], cache₁, []⟩
      | (some e, cache₁) =>
        if ledgerOk then
          ⟨[.saving, .savedConfirmation text e.amount], cache₁.del k, [(text, e.amount)]⟩
        else
          ⟨[.saving, .errorMessage], cache₁, [(text, e.amount)]⟩

/-- The Android processedTransactions list: (insertedAt, amount) pairs. -/
structure DedupWindow where
  entries : List (Nat × Int)
deriving Repr, DecidableEq

/-- The dedup step of onNotificationPosted: first remove every pair
strictly older than the window, then report a duplicate when any
surviving pair carries the identical amount (and do not insert);
otherwise insert the new pair and report a non-duplicate. -/
def observe (w : DedupWindow) (amount : Int) (now : Nat) : Bool × DedupWindow :=
  let pruned := w.entries.filter (fun p => !(decide (now - p.1 > DEBOUNCE_MS)))
  if pruned.any (fun p => p.2 == amount) then
    (true, ⟨pruned⟩)
  else
    (false, ⟨pruned ++ [(now, amount)]⟩)

/-- Combined state of the sensor dedup window and the server store. -/
structure SystemState where
  window : DedupWindow
  cache : Cache
deriving Repr, DecidableEq

/-- Result of one end-to-end submission: the new combined state, the
sendMessage invocations, and whether the dedup step dropped the event. -/
structure SubmitOutcome where
  state : SystemState
  notifs : List Int
  duplicate : Bool
deriving Repr, DecidableEq

/-- One sensor observation pushed through the pipeline: the Android dedup
step runs first; a duplicate terminates there with no request, while a
non-duplicate amount is POSTed to the webhook route. -/
def submitObservation (st : SystemState) (amount : Int) (now : Nat)
    (freshId : String) (sendOk : Bool) : SubmitOutcome :=
  let step := observe st.window amount now
  if step.1 then ⟨⟨step.2, st.cache⟩, [], true⟩
  else
    let out := handleWebhook st.cache (some (.num amount)) now freshId sendOk
    ⟨⟨step.2, out.cache⟩, out.notifs, false⟩

/-- ASCII digits, the d class of the Kotlin regex. -/
def isDigitCh (c : Char) : Bool := c.isDigit

/-- The amount group class of the regex: digits, dot, comma. -/
def isAmountCh (c : Char) : Bool := c.isDigit || c == '.' || c == ','

/-- Whitespace as matched by the s class of the regex. -/
def isSpaceCh (c : Char) : Bool :=
  c == ' ' || c == '\t' || c == '\n' || c == '\r' || c == '\x0B' || c == '\x0C'

/-- The currency marker alternation of the regex, tried at the head of
the text: IDR first, then Rp (at a fixed position at most one of the two
literals can match, since they start with different letters). -/
def matchMarker : List Char → Option (List Char)
  | 'I' :: 'D' :: 'R' :: rest => some rest
  | 'R' :: 'p' :: rest => some rest
  | _ => none

/-- Greedy whitespace star.  Whitespace and the amount class are
disjoint, so the greedy consumption never needs to backtrack. -/
def skipSpaces : List Char → List Char
  | [] => []
  | c :: rest => if isSpaceCh c then skipSpaces rest else c :: rest

/-- The whole pattern tried at one position: a marker, then optional
whitespace, then a nonempty greedy run of digits, dots and commas, which
is group 2 of the match. -/
def matchAt (s : List Char) : Option (List Char) :=
  match matchMarker s with
  | none => none
  | some r =>
    let run := (skipSpaces r).takeWhile isAmountCh
    if run.isEmpty then none else some run

/-- Regex find semantics: the pattern is tried at each position from the
left and the first success wins. -/
def findAmountToken : List Char → Option (List Char)
  | [] => none
  | c :: rest =>
    match matchAt (c :: rest) with
    | some run => some run
    | none => findAmountToken rest

/-- Drop the thousands separators, dots and commas alike. -/
def stripSeparators (run : List Char) : List Char :=
  run.filter (fun c => !(c == '.') && !(c == ','))

/-- Value of a digit string. -/
def digitsToNat (ds : List Char) : Nat :=
  ds.foldl (fun acc c => acc * 10 + (c.toNat - '0'.toNat)) 0

/-- Kotlin toDoubleOrNull on the strings that can reach it here: after
separator stripping the candidate is a possibly empty digit string, and
it parses exactly when it is nonempty. -/
def parseDecimal (ds : List Char) : Option Nat :=
  if ds.isEmpty then none else some (digitsToNat ds)

/-- extractAmount of JagoanListenerService: the first match of the
pattern in the text, with its amount group stripped of separators and
parsed; no match means no amount. -/
def extractAmount (text : List Char) : Option Nat :=
  match findAmountToken text with
  | none => none
  | some run => parseDecimal (stripSeparators run)

end Jagoan

namespace Jagoan

/-- Helper: a reply from the configured chat, with a live head entry and a
successful Notion create, resolves exactly that head entry. -/
theorem handleReply_resolves_head (e : CacheEntry) (rest : List CacheEntry)
    (auth text : String) (now : Nat) (h : now ≤ e.expiresAt) :
    handleReply ⟨e :: rest⟩ auth auth text now true =
      ⟨[.saving, .savedConfirmation text e.amount], ⟨rest⟩, [(text, e.amount)]⟩ := by
  have hlive : ¬ (e.expiresAt < now) := Nat.not_lt.mpr h
  simp [handleReply, Cache.keys, Cache.get, Cache.del, findEntry, removeEntry, hlive]

/-- Helper: a reply from the configured chat, with a live head entry and a
failing Notion create, sends the failure message and leaves the store as
it was. -/
theorem handleReply_ledger_failure (e : CacheEntry) (rest : List CacheEntry)
    (auth text : String) (now : Nat) (h : now ≤ e.expiresAt) :
    handleReply ⟨e :: rest⟩ auth auth text now false =
      ⟨[.saving, .errorMessage], ⟨e :: rest⟩, [(text, e.amount)]⟩ := by
  have hlive : ¬ (e.expiresAt < now) := Nat.not_lt.mpr h
  simp [handleReply, Cache.keys, Cache.get, Cache.del, findEntry, removeEntry, hlive]

/-- Helper: a reply from the configured chat whose head entry is expired
answers the not-found-or-expired message, drops that entry (node-cache
deleteOnExpire inside get) and performs no ledger write. -/
theorem handleReply_head_expired (e : CacheEntry) (rest : List CacheEntry)
    (auth text : String) (now : Nat) (ledgerOk : Bool) (h : e.expiresAt < now) :
    handleReply ⟨e :: rest⟩ auth auth text now ledgerOk =
      ⟨[.notFoundOrExpired], ⟨rest⟩, []⟩ := by
  simp [handleReply, Cache.keys, Cache.get, Cache.del, findEntry, removeEntry, h]

end Jagoan

namespace Jagoan

/-- C1 counterexample: with one live pending entry, a reply from the
configured chat whose Notion create fails does send the failure message,
but the entry is still in the store afterwards (the source deletes only
after a successful create), and a subsequent reply does resolve it into a
ledger write — refuting the claim that the transaction is lost from the
pending store. -/
theorem c1_counterexample :
    handleReply ⟨[⟨"t1", 10000, 0, TTL_MS⟩]⟩ "me" "me" "Makan" 5 false =
      ⟨[.saving, .errorMessage], ⟨[⟨"t1", 10000, 0, TTL_MS⟩]⟩, [("Makan", 10000)]⟩ ∧
    (handleReply ⟨[⟨"t1", 10000, 0, TTL_MS⟩]⟩ "me" "me" "Makan" 9 true).ledgerWrites =
      [("Makan", 10000)] := by
  decide

/-- C1 amended: on ledger-write failure the handler emits the failure
message to the sender and leaves the pending store exactly as it was —
the selected entry is never removed before a successful write, so a
subsequent reply (while the entry is live) resolves it. -/
theorem c1_ledger_failure_keeps_entry (e : CacheEntry) (rest : List CacheEntry)
    (auth text : String) (now : Nat) (h : now ≤ e.expiresAt) :
    handleReply ⟨e :: rest⟩ auth auth text now false =
      ⟨[.saving, .errorMessage], ⟨e :: rest⟩, [(text, e.amount)]⟩ ∧
    ∀ text₂ now₂, now₂ ≤ e.expiresAt →
      (handleReply ⟨e :: rest⟩ auth auth text₂ now₂ true).ledgerWrites =
        [(text₂, e.amount)] := by
  refine ⟨handleReply_ledger_failure e rest auth text now h, fun text₂ now₂ h₂ => ?_⟩
  rw [handleReply_resolves_head e rest auth text₂ now₂ h₂]

/-- C1 witness: the amended claim evaluated on one live entry. -/
theorem c1_witness :
    handleReply ⟨[⟨"t1", 10000, 0, TTL_MS⟩]⟩ "me" "me" "Makan" 5 false =
      ⟨[.saving, .errorMessage], ⟨[⟨"t1", 10000, 0, TTL_MS⟩]⟩, [("Makan", 10000)]⟩ ∧
    (handleReply ⟨[⟨"t1", 10000, 0, TTL_MS⟩]⟩ "me" "me" "Nasi" 9 true).ledgerWrites =
      [("Nasi", 10000)] :=
  ⟨(c1_ledger_failure_keeps_entry ⟨"t1", 10000, 0, TTL_MS⟩ [] "me" "Makan" 5
      (by decide)).1,
   (c1_ledger_failure_keeps_entry ⟨"t1", 10000, 0, TTL_MS⟩ [] "me" "Makan" 5
      (by decide)).2 "Nasi" 9 (by decide)⟩

/-- C4: resolution is FIFO — with two live entries inserted in order, the
first authorized reply writes the first entry's amount to the ledger and
leaves exactly the second, and the next reply writes the second's. -/
theorem c4_fifo_resolution (e₁ e₂ : CacheEntry) (auth text₁ text₂ : String)
    (now₁ now₂ : Nat) (h₁ : now₁ ≤ e₁.expiresAt) (h₂ : now₂ ≤ e₂.expiresAt) :
    handleReply ⟨[e₁, e₂]⟩ auth auth text₁ now₁ true =
      ⟨[.saving, .savedConfirmation text₁ e₁.amount], ⟨[e₂]⟩, [(text₁, e₁.amount)]⟩ ∧
    handleReply (handleReply ⟨[e₁, e₂]⟩ auth auth text₁ now₁ true).cache
        auth auth text₂ now₂ true =
      ⟨[.saving, .savedConfirmation text₂ e₂.amount], ⟨[]⟩, [(text₂, e₂.amount)]⟩ := by
  have h := handleReply_resolves_head e₁ [e₂] auth text₁ now₁ h₁
  refine ⟨h, ?_⟩
  rw [h]
  exact handleReply_resolves_head e₂ [] auth text₂ now₂ h₂

/-- C4 witness: two entries with amounts 10000 and 20000 resolved in
insertion order by two replies. -/
theorem c4_witness :
    handleReply ⟨[⟨"t1", 10000, 0, TTL_MS⟩, ⟨"t2", 20000, 5, 5 + TTL_MS⟩]⟩
        "me" "me" "Makan" 10 true =
      ⟨[.saving, .savedConfirmation "Makan" 10000],
        ⟨[⟨"t2", 20000, 5, 5 + TTL_MS⟩]⟩, [("Makan", 10000)]⟩ ∧
    handleReply
        (handleReply ⟨[⟨"t1", 10000, 0, TTL_MS⟩, ⟨"t2", 20000, 5, 5 + TTL_MS⟩]⟩
          "me" "me" "Makan" 10 true).cache "me" "me" "Bensin" 20 true =
      ⟨[.saving, .savedConfirmation "Bensin" 20000], ⟨[]⟩, [("Bensin", 20000)]⟩ :=
  c4_fifo_resolution ⟨"t1", 10000, 0, TTL_MS⟩ ⟨"t2", 20000, 5, 5 + TTL_MS⟩
    "me" "Makan" "Bensin" 10 20 (by decide) (by decide)

/-- C5 counterexample: one entry inserted at time 0 with the one hour TTL,
reply at TTL_MS + 1.  No ledger write happens, but the handler answers the
not-found-or-expired message rather than the nothing-pending one (the key
list still contains the expired key), and the store is mutated: get drops
the expired entry.  This refutes the claimed nothing-pending response and
the claimed absence of state mutation. -/
theorem c5_counterexample :
    handleReply ⟨[⟨"t1", 10000, 0, TTL_MS⟩]⟩ "me" "me" "Makan" (TTL_MS + 1) true =
      ⟨[.notFoundOrExpired], ⟨[]⟩, []⟩ ∧
    [BotReply.notFoundOrExpired] ≠ [BotReply.nothingPending] ∧
    (⟨[]⟩ : Cache) ≠ ⟨[⟨"t1", 10000, 0, TTL_MS⟩]⟩ := by
  decide

/-- C5 amended: a reply arriving strictly later than the head entry's
insertion time plus the TTL performs no ledger write; instead of the
nothing-pending response it answers the not-found-or-expired message and
drops the expired entry (so with a singleton store the store becomes
empty).  The nothing-pending response occurs only when the key list is
already empty. -/
theorem c5_expired_not_resolvable (e : CacheEntry) (rest : List CacheEntry)
    (auth text : String) (now : Nat) (ledgerOk : Bool)
    (hT : e.expiresAt = e.ts + TTL_MS) (h : e.ts + TTL_MS < now) :
    handleReply ⟨e :: rest⟩ auth auth text now ledgerOk =
      ⟨[.notFoundOrExpired], ⟨rest⟩, []⟩ :=
  handleReply_head_expired e rest auth text now ledgerOk (by omega)

/-- C5 witness: the amended claim evaluated on an expired sole entry. -/
theorem c5_witness :
    handleReply ⟨[⟨"t9", 42000, 7, 7 + TTL_MS⟩]⟩ "me" "me" "Kopi"
        (7 + TTL_MS + 3) true =
      ⟨[.notFoundOrExpired], ⟨[]⟩, []⟩ :=
  c5_expired_not_resolvable ⟨"t9", 42000, 7, 7 + TTL_MS⟩ [] "me" "Kopi"
    (7 + TTL_MS + 3) true (by decide) (by decide)

/-- C6: a reply whose chat id differs from the configured one is dropped
with no store mutation, no ledger write and no response. -/
theorem c6_unauthorized_noop (cache : Cache) (chatId auth text : String)
    (now : Nat) (ledgerOk : Bool) (h : chatId ≠ auth) :
    handleReply cache chatId auth text now ledgerOk = ⟨[], cache, []⟩ := by
  simp [handleReply, h]

/-- C6 witness: an unauthorized chat id against a nonempty store. -/
theorem c6_witness :
    handleReply ⟨[⟨"t1", 7000, 0, TTL_MS⟩]⟩ "intruder" "me" "x" 5 true =
      ⟨[], ⟨[⟨"t1", 7000, 0, TTL_MS⟩]⟩, []⟩ :=
  c6_unauthorized_noop ⟨[⟨"t1", 7000, 0, TTL_MS⟩]⟩ "intruder" "me" "x" 5 true
    (by decide)

/-- C10: a successful resolution removes exactly the head entry — the one
whose amount was written to the ledger — and the remaining entries are
returned verbatim, ids, amounts and timestamps untouched. -/
theorem c10_resolution_frame (e : CacheEntry) (rest : List CacheEntry)
    (auth text : String) (now : Nat) (h : now ≤ e.expiresAt) :
    handleReply ⟨e :: rest⟩ auth auth text now true =
      ⟨[.saving, .savedConfirmation text e.amount], ⟨rest⟩, [(text, e.amount)]⟩ :=
  handleReply_resolves_head e rest auth text now h

/-- C10 witness: three entries; resolving the head leaves the other two
entries byte for byte. -/
theorem c10_witness :
    handleReply ⟨[⟨"t1", 10000, 0, TTL_MS⟩, ⟨"t2", 20000, 5, 5 + TTL_MS⟩,
        ⟨"t3", 30000, 9, 9 + TTL_MS⟩]⟩ "me" "me" "Makan" 50 true =
      ⟨[.saving, .savedConfirmation "Makan" 10000],
        ⟨[⟨"t2", 20000, 5, 5 + TTL_MS⟩, ⟨"t3", 30000, 9, 9 + TTL_MS⟩]⟩,
        [("Makan", 10000)]⟩ :=
  c10_resolution_frame ⟨"t1", 10000, 0, TTL_MS⟩
    [⟨"t2", 20000, 5, 5 + TTL_MS⟩, ⟨"t3", 30000, 9, 9 + TTL_MS⟩]
    "me" "Makan" 50 (by decide)

end Jagoan

namespace Jagoan

/-- C2 counterexample: an inbound event with the negative amount -500
passes the guard (a negative number is truthy and of number type), so the
server answers 200, stores a pending entry and invokes the Telegram
notification — refuting the claim that negative amounts are rejected with
no state mutation and no notification. -/
theorem c2_counterexample :
    handleWebhook ⟨[]⟩ (some (.num (-500))) 0 "t1" true =
      ⟨.ok200 "t1", ⟨[⟨"t1", -500, 0, TTL_MS⟩]⟩, [-500]⟩ ∧
    WebhookStatus.ok200 "t1" ≠ .rejected400 := by
  decide

/-- C2 amended: an inbound event whose amount is missing, equal to 0, or
not a number is rejected with the 400 response, mutates nothing and sends
no notification.  (A negative numeric amount, by contrast, is accepted.) -/
theorem c2_invalid_amount_rejected (cache : Cache) (amount : Option JsonValue)
    (now : Nat) (freshId : String) (sendOk : Bool)
    (h : amount = none ∨ amount = some (.num 0) ∨ jsIsNumber amount = false) :
    handleWebhook cache amount now freshId sendOk = ⟨.rejected400, cache, []⟩ := by
  have hcond : (jsFalsy amount || !(jsIsNumber amount)) = true := by
    rcases h with h | h | h
    · subst h; rfl
    · subst h; rfl
    · simp [h]
  simp [handleWebhook, hcond]

/-- C2 witness: the amended claim evaluated at amount 0. -/
theorem c2_witness :
    handleWebhook ⟨[]⟩ (some (.num 0)) 3 "t1" true = ⟨.rejected400, ⟨[]⟩, []⟩ :=
  c2_invalid_amount_rejected ⟨[]⟩ (some (.num 0)) 3 "t1" true (Or.inr (Or.inl rfl))

/-- C3: submitting the same nonzero amount twice within 100 ms, starting
from empty dedup window and store, yields exactly one pending entry and
exactly one notification; the second submission is classified duplicate
and terminates with the combined state unchanged and no notification. -/
theorem c3_duplicate_suppression (A : Int) (t d : Nat) (id₁ id₂ : String)
    (hA : A ≠ 0) (hd : d ≤ 100) :
    submitObservation ⟨⟨[]⟩, ⟨[]⟩⟩ A t id₁ true =
      ⟨⟨⟨[(t, A)]⟩, ⟨[⟨id₁, A, t, t + TTL_MS⟩]⟩⟩, [A], false⟩ ∧
    submitObservation ⟨⟨[(t, A)]⟩, ⟨[⟨id₁, A, t, t + TTL_MS⟩]⟩⟩ A (t + d) id₂ true =
      ⟨⟨⟨[(t, A)]⟩, ⟨[⟨id₁, A, t, t + TTL_MS⟩]⟩⟩, [], true⟩ := by
  constructor
  · simp [submitObservation, observe, handleWebhook, jsFalsy, jsIsNumber,
      Cache.set, findEntry, hA]
  · have h1 : t + d - t = d := by omega
    have h2 : ¬ (d > DEBOUNCE_MS) := by unfold DEBOUNCE_MS; omega
    simp [submitObservation, observe, h1, decide_eq_false h2]

/-- C3 witness: amount 10000 submitted at times 0 and 100. -/
theorem c3_witness :
    submitObservation ⟨⟨[]⟩, ⟨[]⟩⟩ 10000 0 "a" true =
      ⟨⟨⟨[(0, 10000)]⟩, ⟨[⟨"a", 10000, 0, 0 + TTL_MS⟩]⟩⟩, [10000], false⟩ ∧
    submitObservation ⟨⟨[(0, 10000)]⟩, ⟨[⟨"a", 10000, 0, 0 + TTL_MS⟩]⟩⟩ 10000
        (0 + 100) "b" true =
      ⟨⟨⟨[(0, 10000)]⟩, ⟨[⟨"a", 10000, 0, 0 + TTL_MS⟩]⟩⟩, [], true⟩ :=
  c3_duplicate_suppression 10000 0 100 "a" "b" (by decide) (by decide)

/-- C7: for observations of one amount at times t, t+1, t+4999 and t+5001
with the 5000 ms window, exactly the first and the last are classified
non-duplicate and inserted; the two in between are classified duplicate
and not inserted, and the t+5001 observation sees the stale entry pruned
before the duplicate check. -/
theorem c7_dedup_window (A : Int) (t : Nat) :
    observe ⟨[]⟩ A t = (false, ⟨[(t, A)]⟩) ∧
    observe ⟨[(t, A)]⟩ A (t + 1) = (true, ⟨[(t, A)]⟩) ∧
    observe ⟨[(t, A)]⟩ A (t + 4999) = (true, ⟨[(t, A)]⟩) ∧
    observe ⟨[(t, A)]⟩ A (t + 5001) = (false, ⟨[(t + 5001, A)]⟩) := by
  have e1 : t + 1 - t = 1 := by omega
  have e2 : t + 4999 - t = 4999 := by omega
  have e3 : t + 5001 - t = 5001 := by omega
  refine ⟨by simp [observe], ?_, ?_, ?_⟩
  · simp [observe, e1, DEBOUNCE_MS]
  · simp [observe, e2, DEBOUNCE_MS]
  · simp [observe, e3, DEBOUNCE_MS]

/-- C8: when the Telegram send announcing an accepted amount fails, the
webhook answers 500 but the pending entry was already stored and is left
in the store unaltered; a later authorized reply within the TTL resolves
it into a ledger write. -/
theorem c8_send_failure_entry_survives (n : Int) (now : Nat)
    (freshId auth text : String) (now₂ : Nat) (hn : n ≠ 0)
    (h₂ : now₂ ≤ now + TTL_MS) :
    handleWebhook ⟨[]⟩ (some (.num n)) now freshId false =
      ⟨.error500, ⟨[⟨freshId, n, now, now + TTL_MS⟩]⟩, [n]⟩ ∧
    handleReply ⟨[⟨freshId, n, now, now + TTL_MS⟩]⟩ auth auth text now₂ true =
      ⟨[.saving, .savedConfirmation text n], ⟨[]⟩, [(text, n)]⟩ := by
  constructor
  · simp [handleWebhook, jsFalsy, jsIsNumber, Cache.set, findEntry, hn]
  · exact handleReply_resolves_head ⟨freshId, n, now, now + TTL_MS⟩ [] auth text now₂ h₂

/-- C8 witness: amount 50000 accepted at time 0 with a failing send, then
resolved by a reply at time 10. -/
theorem c8_witness :
    handleWebhook ⟨[]⟩ (some (.num 50000)) 0 "t1" false =
      ⟨.error500, ⟨[⟨"t1", 50000, 0, 0 + TTL_MS⟩]⟩, [50000]⟩ ∧
    handleReply ⟨[⟨"t1", 50000, 0, 0 + TTL_MS⟩]⟩ "me" "me" "Lunch" 10 true =
      ⟨[.saving, .savedConfirmation "Lunch" 50000], ⟨[]⟩, [("Lunch", 50000)]⟩ :=
  c8_send_failure_entry_survives 50000 0 "t1" "me" "Lunch" 10 (by decide) (by decide)

end Jagoan

namespace Jagoan

/-- Helper: the pattern never matches the empty text. -/
theorem matchAt_nil : matchAt [] = none := rfl

/-- Helper: when the pattern fails at every position, the regex find
comes back empty. -/
theorem findAmountToken_eq_none (s : List Char)
    (h : ∀ i, matchAt (s.drop i) = none) : findAmountToken s = none := by
  induction s with
  | nil => rfl
  | cons c rest ih =>
    have h0 : matchAt (c :: rest) = none := by simpa using h 0
    have hrest : ∀ i, matchAt (rest.drop i) = none := by
      intro i
      simpa [List.drop_succ_cons] using h (i + 1)
    simp [findAmountToken, h0, ih hrest]

/-- Helper: when the pattern fails strictly before position i and
succeeds at i, the regex find returns the match at i. -/
theorem findAmountToken_first (i : Nat) (s : List Char) (run : List Char)
    (hnone : ∀ j, j < i → matchAt (s.drop j) = none)
    (hi : matchAt (s.drop i) = some run) : findAmountToken s = some run := by
  induction i generalizing s with
  | zero =>
    cases s with
    | nil => simp [matchAt_nil] at hi
    | cons c rest =>
      have h0 : matchAt (c :: rest) = some run := by simpa using hi
      simp [findAmountToken, h0]
  | succ i ih =>
    cases s with
    | nil => simp [matchAt_nil] at hi
    | cons c rest =>
      have h0 : matchAt (c :: rest) = none := by
        simpa using hnone 0 (Nat.succ_pos i)
      have hrest : ∀ j, j < i → matchAt (rest.drop j) = none := by
        intro j hj
        simpa [List.drop_succ_cons] using hnone (j + 1) (by omega)
      have hi' : matchAt (rest.drop i) = some run := by
        simpa [List.drop_succ_cons] using hi
      simp [findAmountToken, h0, ih rest hrest hi']

/-- C9: amount extraction takes the first position at which the pattern
(currency marker, optional whitespace, then a nonempty run of digits,
dots and commas) matches, strips the separators from the matched run and
parses the remainder as a decimal number; when the pattern matches
nowhere, no amount is returned. -/
theorem c9_extract_first_match (text : List Char) :
    ((∀ i, matchAt (text.drop i) = none) → extractAmount text = none) ∧
    (∀ i run, (∀ j, j < i → matchAt (text.drop j) = none) →
      matchAt (text.drop i) = some run →
      extractAmount text = parseDecimal (stripSeparators run)) := by
  constructor
  · intro h
    simp [extractAmount, findAmountToken_eq_none text h]
  · intro i run hnone hi
    simp [extractAmount, findAmountToken_first i text run hnone hi]

/-- C9 witness: the text xRp 5.000y matches first at position 1; the
extractor strips the dot and parses 5000. -/
theorem c9_witness :
    extractAmount ['x', 'R', 'p', ' ', '5', '.', '0', '0', '0', 'y'] = some 5000 := by
  have h := (c9_extract_first_match
      ['x', 'R', 'p', ' ', '5', '.', '0', '0', '0', 'y']).2 1
      ['5', '.', '0', '0', '0']
      (by intro j hj; interval_cases j; decide) (by decide)
  exact h.trans (by decide)

end Jagoan
